import Mathlib

/-!
Shallow embedding of qLungAIRAppMainWindow
(src/Applications/LungAIRApp/qLungAIRAppMainWindow.h) from the LungAIR
desktop application.  The repository ships only the header; the method
bodies live in qLungAIRAppMainWindow.cxx, which is not in the source
tree, so every behavioral definition below is marked as modelled from
the spec.  The class declaration itself is embedded directly from the
header.
-/

namespace LungAIR

/-- Member access levels of a C++ class declaration. -/
inductive Access where
  | pub
  | prot
  | priv
  deriving DecidableEq, Repr

/-- A constructor declaration of the embedded class, as written in the
header: its access level, whether it takes a private-state (pimpl)
argument, whether it takes a parent widget argument, and whether that
parent argument defaults to the null widget 0. -/
structure CtorDecl where
  access : Access
  takesPimpl : Bool
  hasParentParam : Bool
  parentDefaultsToNull : Bool
  deriving DecidableEq, Repr

/-- The shape of a C++ class declaration, with the fields the header of
qLungAIRAppMainWindow exercises.  A deleted copy member counts as
user-declared in C++, hence the two deleted flags. -/
structure ClassDecl where
  name : String
  superclass : String
  ctors : List CtorDecl
  dtorVirtual : Bool
  dtorUserDeclared : Bool
  slots : List String
  copyCtorDeleted : Bool
  copyAssignDeleted : Bool
  moveCtorUserDeclared : Bool
  moveAssignUserDeclared : Bool
  declaresPrivateImpl : Bool
  deriving DecidableEq, Repr

/-- Embedded from qLungAIRAppMainWindow.h lines 28 to 46: the class
derives from qSlicerMainWindow, has a public constructor taking
QWidget *parent with default 0, a user-declared virtual destructor, the
single slot on_HelpAboutLungAIRAppAction_triggered, a protected
constructor taking a qLungAIRAppMainWindowPrivate pointer and a parent,
Q_DECLARE_PRIVATE, and Q_DISABLE_COPY, which declares the copy
constructor and the copy assignment operator deleted.  No move member
is declared anywhere in the header. -/
def qLungAIRAppMainWindowDecl : ClassDecl where
  name := "qLungAIRAppMainWindow"
  superclass := "qSlicerMainWindow"
  ctors :=
    [ { access := .pub, takesPimpl := false, hasParentParam := true,
        parentDefaultsToNull := true },
      { access := .prot, takesPimpl := true, hasParentParam := true,
        parentDefaultsToNull := false } ]
  dtorVirtual := true
  dtorUserDeclared := true
  slots := ["on_HelpAboutLungAIRAppAction_triggered"]
  copyCtorDeleted := true
  copyAssignDeleted := true
  moveCtorUserDeclared := false
  moveAssignUserDeclared := false
  declaresPrivateImpl := true

/-- C++ semantics: a type with a deleted copy constructor or a deleted
copy assignment operator cannot be copied; copies fail to compile. -/
def isCopyable (d : ClassDecl) : Bool :=
  !d.copyCtorDeleted && !d.copyAssignDeleted

/-- C++ implicit-declaration rule: a move constructor or move assignment
operator is implicitly generated only when the class has no
user-declared copy constructor, copy assignment, move member, or
destructor.  A deleted copy member counts as user-declared. -/
def implicitMoveGenerated (d : ClassDecl) : Bool :=
  !d.copyCtorDeleted && !d.copyAssignDeleted &&
  !d.moveCtorUserDeclared && !d.moveAssignUserDeclared && !d.dtorUserDeclared

/-- C++ overload resolution: when no move member is user-declared or
implicitly generated, a move expression falls back to the copy members,
so the type is movable only if those are usable. -/
def isMovable (d : ClassDecl) : Bool :=
  d.moveCtorUserDeclared || d.moveAssignUserDeclared ||
  implicitMoveGenerated d || isCopyable d

/-- Which dialog a dialog-presentation effect shows. -/
inductive Dlg where
  | customAboutDialog
  | frameworkDefaultAboutDialog
  deriving DecidableEq, Repr

/-- Observable UI side effects of the window operations. -/
inductive Effect where
  | showDialog (d : Dlg)
  deriving DecidableEq, Repr

/-- Abstract toolkit-level failure, raised only below this unit. -/
inductive ToolkitError where
  | err (code : Nat)
  deriving DecidableEq, Repr

/-- Dynamic (runtime) type identity of a constructed window object. -/
inductive TypeId where
  | qSlicerMainWindowType
  | qLungAIRAppMainWindowType
  deriving DecidableEq, Repr

/-- A constructed window instance: its optional parent widget (by id),
its dynamic type identity, and the id of its private-state object. -/
structure Window where
  parent : Option Nat
  dynamicType : TypeId
  pimplId : Nat
  deriving DecidableEq, Repr

/-- World state instrumenting private-state (pimpl) lifetimes: nextId is
a fresh allocation id, livePriv lists the ids of live private-state
objects, destroyedPriv lists the ids whose destructor has run, with
multiplicity, so that double frees are observable as repeated entries. -/
structure World where
  nextId : Nat
  livePriv : List Nat
  destroyedPriv : List Nat
  deriving DecidableEq, Repr

/-- A window is top-level when it has no parent. -/
def Window.isTopLevel (win : Window) : Bool :=
  win.parent.isNone

/-- Modelled from the spec: the shared initialization path of the
constructors, whose bodies are in qLungAIRAppMainWindow.cxx (not in the
source tree).  It installs the supplied private-state object and the
parent, and stamps the derived dynamic type on the new object. -/
def sharedInit (w : World) (pid : Nat) (parent : Option Nat) : World × Window :=
  ({ w with livePriv := pid :: w.livePriv },
   { parent := parent, dynamicType := .qLungAIRAppMainWindowType, pimplId := pid })

/-- Modelled from the spec: the protected constructor
qLungAIRAppMainWindow(qLungAIRAppMainWindowPrivate* pimpl, QWidget*
parent), whose body is in qLungAIRAppMainWindow.cxx (not in the source
tree).  A further-derived subclass supplies its own private-state
object and the shared initialization path runs on it. -/
def constructWithPimpl (w : World) (pid : Nat) (parent : Option Nat) :
    World × Window :=
  sharedInit w pid parent

/-- Modelled from the spec: the public constructor
qLungAIRAppMainWindow(QWidget *parent=0), whose body is in
qLungAIRAppMainWindow.cxx (not in the source tree).  It allocates a
fresh private-state object and reuses the shared initialization path.
An omitted parent argument means the declared default 0, embedded as
none. -/
def construct (w : World) (parent : Option Nat) : World × Window :=
  constructWithPimpl { w with nextId := w.nextId + 1 } w.nextId parent

/-- Modelled from the spec: the destructor, whose body is in
qLungAIRAppMainWindow.cxx (not in the source tree).  It releases the
owned private-state object, running its destructor once. -/
def destruct (w : World) (win : Window) : World :=
  { w with livePriv := w.livePriv.erase win.pimplId,
           destroyedPriv := win.pimplId :: w.destroyedPriv }

/-- Modelled from the spec: the slot body of
on_HelpAboutLungAIRAppAction_triggered in qLungAIRAppMainWindow.cxx
(not in the source tree).  It presents the application-specific about
dialog in place of the framework default, returns nothing beyond that
side effect, leaves the window unchanged, and raises no error. -/
def on_HelpAboutLungAIRAppAction_triggered (win : Window) :
    Except ToolkitError (Window × List Effect) :=
  .ok (win, [.showDialog .customAboutDialog])

/-- Modelled from the spec: the full construction path including the
base-window initialization, which may fail below this unit.  The
constructor body (qLungAIRAppMainWindow.cxx, not in the source tree)
adds no handling of its own, so a base failure propagates unchanged. -/
def constructE (baseCtor : Option Nat → Except ToolkitError Unit)
    (w : World) (parent : Option Nat) : Except ToolkitError (World × Window) :=
  match baseCtor parent with
  | .error e => .error e
  | .ok _ => .ok (construct w parent)

/-- Modelled from the spec: deletion through a pointer of the base type
Superclass (qSlicerMainWindow), following C++ semantics: with a virtual
destructor the derived destructor runs; without one only the base
subobject would be destroyed and the derived private state would never
be released. -/
def deleteViaBasePtr (d : ClassDecl) (w : World) (win : Window) : World :=
  if d.dtorVirtual then destruct w win else w

/-- The window operations: the one customized about action, and every
other operation of the inherited window contract (menus, toolbars,
docking areas, status bar), indexed abstractly. -/
inductive Op where
  | aboutAction
  | inherited (code : Nat)
  deriving DecidableEq, Repr

/-- Modelled from the spec: the dispatch of the subclass window.  The
base qSlicerMainWindow behavior is an arbitrary parameter; the subclass
overrides only the about action and forwards every other operation to
the base behavior unchanged. -/
def windowHandle (base : Op → List Effect) : Op → List Effect
  | .aboutAction => [.showDialog .customAboutDialog]
  | .inherited c => base (.inherited c)

/-- C1: on a constructed window the about handler does not throw (the
result is ok), leaves the window unchanged, returns nothing beyond the
effect list, and produces exactly one dialog-presentation effect,
namely the application-specific about dialog, which differs from the
framework default about dialog. -/
theorem C1_about_handler (w : World) (parent : Option Nat) :
    on_HelpAboutLungAIRAppAction_triggered (construct w parent).2 =
      .ok ((construct w parent).2, [Effect.showDialog Dlg.customAboutDialog]) ∧
    [Effect.showDialog Dlg.customAboutDialog].length = 1 ∧
    Effect.showDialog Dlg.customAboutDialog ≠
      Effect.showDialog Dlg.frameworkDefaultAboutDialog :=
  ⟨rfl, rfl, by decide⟩

/-- C2: for every operation other than the about action the window
forwards to the base qSlicerMainWindow behavior unchanged, and by its
declaration the subclass adds only the single about slot. -/
theorem C2_refines_base (base : Op → List Effect) (op : Op)
    (h : op ≠ Op.aboutAction) :
    windowHandle base op = base op ∧
    qLungAIRAppMainWindowDecl.slots = ["on_HelpAboutLungAIRAppAction_triggered"] := by
  cases op with
  | aboutAction => exact absurd rfl h
  | inherited c => exact ⟨rfl, rfl⟩

/-- Witness for C2 at the concrete non-about operation inherited 0. -/
theorem C2_refines_base_witness :
    windowHandle (fun _ => []) (Op.inherited 0) = [] :=
  (C2_refines_base (fun _ => []) (Op.inherited 0) (by decide)).1

/-- C3: the parent argument of the public constructor is optional (the
header declares the default 0); constructing with it omitted yields a
parentless, top-level window, and constructing with a parent yields a
window attached to that parent. -/
theorem C3_parent_optional (w : World) (p : Nat) :
    (qLungAIRAppMainWindowDecl.ctors.all
      (fun c => !(c.access == Access.pub) ||
        (c.hasParentParam && c.parentDefaultsToNull))) = true ∧
    (construct w none).2.parent = none ∧
    (construct w none).2.isTopLevel = true ∧
    (construct w (some p)).2.parent = some p :=
  ⟨by decide, rfl, rfl, rfl⟩

/-- C4: the private-state object is created exactly at construction and
destroyed exactly once at destruction: construction allocates the fresh
id, adds one live private object, and runs no destructor; destruction
leaves no live copy of it (no leak) and increments its destructor count
by exactly one (no double free). -/
theorem C4_pimpl_lifetime (w : World) (parent : Option Nat)
    (hfresh : w.nextId ∉ w.livePriv) :
    (construct w parent).2.pimplId = w.nextId ∧
    (construct w parent).1.livePriv.count w.nextId =
      w.livePriv.count w.nextId + 1 ∧
    (construct w parent).1.destroyedPriv = w.destroyedPriv ∧
    (destruct (construct w parent).1 (construct w parent).2).livePriv.count
      w.nextId = 0 ∧
    (destruct (construct w parent).1 (construct w parent).2).destroyedPriv.count
      w.nextId = w.destroyedPriv.count w.nextId + 1 := by
  refine ⟨rfl, ?_, rfl, ?_, ?_⟩
  · simp [construct, constructWithPimpl, sharedInit, List.count_cons]
  · simp [construct, constructWithPimpl, sharedInit, destruct,
      List.erase_cons_head]
    exact List.count_eq_zero.mpr hfresh
  · simp [construct, constructWithPimpl, sharedInit, destruct, List.count_cons]

/-- Witness for C4 in the world with allocation id 5 and live ids 1, 2. -/
theorem C4_pimpl_lifetime_witness :
    (destruct (construct ⟨5, [1, 2], []⟩ none).1
      (construct ⟨5, [1, 2], []⟩ none).2).destroyedPriv.count 5 =
      (World.mk 5 [1, 2] []).destroyedPriv.count 5 + 1 :=
  (C4_pimpl_lifetime ⟨5, [1, 2], []⟩ none (by decide)).2.2.2.2

/-- C5: copy construction and copy assignment are disabled:
Q_DISABLE_COPY declares both copy members deleted, so any attempted
copy of a window instance fails to compile. -/
theorem C5_copy_disabled :
    qLungAIRAppMainWindowDecl.copyCtorDeleted = true ∧
    qLungAIRAppMainWindowDecl.copyAssignDeleted = true ∧
    isCopyable qLungAIRAppMainWindowDecl = false :=
  ⟨rfl, rfl, rfl⟩

/-- C6: this unit neither catches nor raises any error condition of its
own: a failure of the base-window construction propagates to the caller
unchanged, and the about handler itself never raises. -/
theorem C6_error_transparency (baseCtor : Option Nat → Except ToolkitError Unit)
    (w : World) (parent : Option Nat) (e : ToolkitError)
    (hfail : baseCtor parent = .error e) :
    constructE baseCtor w parent = .error e ∧
    ∀ win : Window, on_HelpAboutLungAIRAppAction_triggered win =
      .ok (win, [Effect.showDialog Dlg.customAboutDialog]) := by
  constructor
  · simp [constructE, hfail]
  · intro win
    rfl

/-- Witness for C6 at a base constructor failing with error code 7. -/
theorem C6_error_transparency_witness :
    constructE (fun _ => .error (ToolkitError.err 7)) ⟨0, [], []⟩ none =
      .error (ToolkitError.err 7) :=
  (C6_error_transparency (fun _ => .error (ToolkitError.err 7)) ⟨0, [], []⟩
    none (ToolkitError.err 7) rfl).1

/-- C7: the header declares a protected constructor taking a
private-state object; that constructor runs exactly the shared
initialization path on the supplied object, which becomes the private
state of the window, and the public constructor reuses the same path
with a freshly allocated object. -/
theorem C7_protected_ctor (w : World) (pid : Nat) (parent : Option Nat) :
    (qLungAIRAppMainWindowDecl.ctors.any
      (fun c => (c.access == Access.prot) && c.takesPimpl)) = true ∧
    constructWithPimpl w pid parent = sharedInit w pid parent ∧
    (constructWithPimpl w pid parent).2.pimplId = pid ∧
    construct w parent =
      constructWithPimpl { w with nextId := w.nextId + 1 } w.nextId parent :=
  ⟨by decide, rfl, rfl, rfl⟩

/-- C8: a window constructed with no parent is top-level and its dynamic
type identity reports the customized type qLungAIRAppMainWindow, not
the base type qSlicerMainWindow. -/
theorem C8_dynamic_type (w : World) :
    (construct w none).2.dynamicType = TypeId.qLungAIRAppMainWindowType ∧
    (construct w none).2.dynamicType ≠ TypeId.qSlicerMainWindowType ∧
    (construct w none).2.isTopLevel = true :=
  ⟨rfl, fun h => TypeId.noConfusion h, rfl⟩

/-- C9: the window type is non-movable as well as non-copyable: the
deleted copy members are user-declared, so no implicit move member is
generated, a move expression falls back to the deleted copies, and no
copy or move operation can transfer an instance. -/
theorem C9_nonmovable :
    implicitMoveGenerated qLungAIRAppMainWindowDecl = false ∧
    isMovable qLungAIRAppMainWindowDecl = false ∧
    isCopyable qLungAIRAppMainWindowDecl = false :=
  ⟨rfl, rfl, rfl⟩

/-- C10: the destructor is declared virtual, so deleting a window
through a pointer of the base type Superclass runs the derived
destructor, and the private state is released exactly once under
polymorphic deletion. -/
theorem C10_virtual_dtor (w : World) (win : Window) :
    qLungAIRAppMainWindowDecl.dtorVirtual = true ∧
    deleteViaBasePtr qLungAIRAppMainWindowDecl w win = destruct w win ∧
    (deleteViaBasePtr qLungAIRAppMainWindowDecl w win).destroyedPriv.count
      win.pimplId = w.destroyedPriv.count win.pimplId + 1 := by
  refine ⟨rfl, rfl, ?_⟩
  simp [deleteViaBasePtr, qLungAIRAppMainWindowDecl, destruct, List.count_cons]

end LungAIR
